import Mathlib

/-!
Shallow embedding of the digital-twin backend core:
the event normalizer (`src/backend/integrations/google_calendar.py`),
the availability classifier (`src/backend/engines/mood_engine.py`),
and the RAG orchestrator (`src/backend/engines/context_engine.py`).

Ambient inputs of the Python code (the current instant, the current hour in
the user timezone, the authentication state, the vector-index search call and
the completion call) are passed as explicit parameters; otherwise each Lean
definition mirrors the Python function of the same name line by line.
-/

namespace DigitalTwin

/-- Normalized calendar event, as built by `get_todays_events` in
`google_calendar.py`: the Python dicts there always carry exactly the keys
`summary`, `start`, `end`, `is_now`, `is_past`. -/
structure CalendarEvent where
  summary : String
  start : String
  «end» : String
  is_now : Bool
  is_past : Bool
  deriving Repr, DecidableEq

/-- Raw provider event after the JSON plumbing of lines 206-207 of
`google_calendar.py`: `start`/`end` are the extracted date-or-datetime
strings, `summary` is the optional title (`event.get("summary", "No title")`). -/
structure RawEvent where
  summary : Option String
  start : String
  «end» : String
  deriving Repr, DecidableEq

/-- Python's `"T" in start` test of line 212 of `google_calendar.py`: the
needle is a single character, so substring containment is character
containment. -/
def containsT (s : String) : Bool := s.data.any (fun c => c = 'T')

/-- One step of the normalization loop of `get_todays_events`
(lines 204-245 of `google_calendar.py`). `parse` stands for
`datetime.fromisoformat(s.replace("Z", "+00:00"))`, returning the denoted
instant (as an integer timestamp) or `none` on a parse error; `fmtHM` stands
for `strftime("%H:%M")`; `now` is the instant `datetime.now(...)` — for
timezone-aware datetimes Python's comparison operators compare absolute
instants, so a single integer timestamp models the comparisons faithfully.
The Python `try`/`except` catches any parse failure and falls back to the raw
strings with both flags `False`. -/
def normalizeEvent (parse : String → Option Int) (fmtHM : Int → String)
    (now : Int) (e : RawEvent) : CalendarEvent :=
  if containsT e.start then
    match parse e.start, parse e.«end» with
    | some start_dt, some end_dt =>
        { summary := e.summary.getD "No title"
          start := fmtHM start_dt
          «end» := fmtHM end_dt
          is_now := decide (start_dt ≤ now ∧ now ≤ end_dt)
          is_past := decide (now > end_dt) }
    | _, _ =>
        { summary := e.summary.getD "No title"
          start := e.start
          «end» := e.«end»
          is_now := false
          is_past := false }
  else
    { summary := e.summary.getD "No title"
      start := "All day"
      «end» := "All day"
      is_now := false
      is_past := false }

/-- The whole `for event in events` loop of `get_todays_events`: each raw
event is normalized independently and appended in provider order. -/
def normalizeEvents (parse : String → Option Int) (fmtHM : Int → String)
    (now : Int) (events : List RawEvent) : List CalendarEvent :=
  events.map (normalizeEvent parse fmtHM now)

/-- Result record of `MoodEngine._analyze_calendar` (`mood_engine.py`
lines 114-124): the authenticated branch always returns a dict with exactly
these nine keys. -/
structure AvailabilityStatus where
  availability : String
  energy_estimate : String
  best_contact_method : String
  suggested_wait_time : String
  context_summary : String
  meeting_count : Nat
  meetings_remaining : Nat
  in_meeting : Bool
  events : List CalendarEvent
  deriving Repr, DecidableEq

/-- `MoodEngine._analyze_calendar` (`mood_engine.py` lines 49-124).
`current_hour` is `datetime.now(USER_TIMEZONE).hour`, passed explicitly. -/
def analyze_calendar (events : List CalendarEvent) (current_hour : Nat) :
    AvailabilityStatus :=
  let meeting_count := events.length
  let in_meeting := events.any (fun event => event.is_now)
  let meetings_remaining := (events.filter (fun event => !event.is_past)).length
  let base :=
    if in_meeting then
      ("busy", "async", "30min",
       "Currently in a meeting. Best to send an async message.")
    else if meeting_count = 0 then
      ("open", "deep_discussion", "now",
       "Calendar is clear today. Great time for a longer conversation.")
    else if meeting_count ≤ 2 then
      ("open", "quick_sync", "now",
       s!"Light day with {meeting_count} meeting(s). Good time to connect.")
    else if meeting_count ≤ 4 then
      ("focused", "quick_sync", "30min",
       s!"Moderate day with {meeting_count} meetings. Quick sync is fine.")
    else
      ("busy", "async", "end_of_day",
       s!"Heavy day with {meeting_count} meetings. Async communication preferred.")
  let overlay :=
    if 9 ≤ current_hour ∧ current_hour < 12 then
      (base.1, "high", base.2.2.2 ++ " Morning energy is typically high.")
    else if 12 ≤ current_hour ∧ current_hour < 14 then
      (base.1, "medium", base.2.2.2 ++ " Post-lunch energy dip.")
    else if 14 ≤ current_hour ∧ current_hour < 16 then
      (base.1, "medium", base.2.2.2 ++ " Afternoon work mode.")
    else if 16 ≤ current_hour then
      ("winding_down", "low", "End of workday. Best to reach out tomorrow morning.")
    else
      (base.1, "medium", base.2.2.2)
  { availability := overlay.1
    energy_estimate := overlay.2.1
    best_contact_method := base.2.1
    suggested_wait_time := base.2.2.1
    context_summary := overlay.2.2
    meeting_count := meeting_count
    meetings_remaining := meetings_remaining
    in_meeting := in_meeting
    events := events }

/-- Value stored under one key of a Python status dict. -/
inductive Value where
  | s (v : String)
  | n (v : Nat)
  | b (v : Bool)
  | evs (v : List CalendarEvent)
  deriving Repr, DecidableEq

/-- The dict literal of `_analyze_calendar` (`mood_engine.py` lines 114-124),
keys in source order. -/
def statusDict (a : AvailabilityStatus) : List (String × Value) :=
  [("availability", .s a.availability),
   ("energy_estimate", .s a.energy_estimate),
   ("best_contact_method", .s a.best_contact_method),
   ("suggested_wait_time", .s a.suggested_wait_time),
   ("context_summary", .s a.context_summary),
   ("meeting_count", .n a.meeting_count),
   ("meetings_remaining", .n a.meetings_remaining),
   ("in_meeting", .b a.in_meeting),
   ("events", .evs a.events)]

/-- The dict literal returned by `MoodEngine.get_status` when
`is_authenticated()` is false (`mood_engine.py` lines 31-39), keys in source
order: it carries seven keys only. -/
def unauthSentinel : List (String × Value) :=
  [("availability", .s "unknown"),
   ("energy_estimate", .s "unknown"),
   ("best_contact_method", .s "async"),
   ("suggested_wait_time", .s "unknown"),
   ("context_summary",
    .s "Calendar not connected. Connect Google Calendar for availability info."),
   ("meeting_count", .n 0),
   ("in_meeting", .b false)]

/-- `MoodEngine.get_status` (`mood_engine.py` lines 22-47). `authenticated`
is the result of `is_authenticated()`, `events` the normalized list returned
by `get_todays_events()`, `current_hour` the ambient user-timezone hour. -/
def get_status (authenticated : Bool) (events : List CalendarEvent)
    (current_hour : Nat) : List (String × Value) :=
  if !authenticated then unauthSentinel
  else statusDict (analyze_calendar events current_hour)

/-- Python `d.get(k)` on a status dict. -/
def dictGet (d : List (String × Value)) (k : String) : Option Value :=
  (d.find? (fun p => p.1 == k)).map (fun p => p.2)

/-- Whether the dict carries the key at all. -/
def hasKey (d : List (String × Value)) (k : String) : Bool :=
  d.any (fun p => p.1 == k)

/-- Retrieved document as assembled by `ContextEngine.retrieve`
(`context_engine.py` lines 44-50). -/
structure RetrievedDoc where
  content : String
  source : String
  score : Int
  deriving Repr, DecidableEq

/-- The per-query answer of the Chroma collection (`results["documents"][0]`,
`results["metadatas"][0]`, `results["distances"][0]`): parallel lists of
document texts, metadata `source` entries (`none` when the metadata dict has
no `source` key) and distances. Distances are opaque to the orchestrator and
only carried along, so an integer stands in for the float. -/
structure SearchResult where
  documents : List String
  metadatas : List (Option String)
  distances : List Int
  deriving Repr, DecidableEq

/-- The zip-and-format loop of `ContextEngine.retrieve` (`context_engine.py`
lines 44-51): one `RetrievedDoc` per zipped triple, in result order,
`meta.get("source", "unknown")` as the source. -/
def formatDocs (res : SearchResult) : List RetrievedDoc :=
  (res.documents.zip (res.metadatas.zip res.distances)).map
    (fun t => { content := t.1, source := t.2.1.getD "unknown", score := t.2.2 })

/-- `ContextEngine.retrieve` (`context_engine.py` lines 36-51): the
`collection.query` network call is the `search` parameter; any exception it
raises propagates, since `retrieve` has no handler. -/
def retrieve (search : String → Nat → Except String SearchResult)
    (query : String) (n_results : Nat) : Except String (List RetrievedDoc) :=
  (search query n_results).map formatDocs

/-- Python `str()` of a stored dict value, as the f-string of
`generate_response` renders it. The `events` value is never rendered by the
code (no f-string interpolates that key), so its rendering is arbitrary. -/
def pyStr : Value → String
  | .s v => v
  | .n v => toString v
  | .b v => if v then "True" else "False"
  | .evs _ => "[]"

/-- Python truthiness of `d.get(k)` (used by
`"YES" if mood_status.get("in_meeting") else "NO"`). -/
def truthy : Option Value → Bool
  | some (.b b) => b
  | some (.s v) => v ≠ ""
  | some (.n v) => v ≠ 0
  | some (.evs l) => l ≠ []
  | none => false

/-- Rendering of `mood_status.get(k, default)` inside the f-string. -/
def getRender (d : List (String × Value)) (k : String) (dflt : Value) : String :=
  pyStr ((dictGet d k).getD dflt)

/-- The `calendar_context` f-string of `ContextEngine.generate_response`
(`context_engine.py` lines 58-65). -/
def calendarContext (mood_status : List (String × Value)) : String :=
  "[CURRENT STATUS - LIVE FROM GOOGLE CALENDAR]\n- Currently in a meeting: "
    ++ (if truthy (dictGet mood_status "in_meeting") then "YES" else "NO")
    ++ "\n- Availability: " ++ getRender mood_status "availability" (.s "unknown")
    ++ "\n- Meetings remaining today: " ++ getRender mood_status "meetings_remaining" (.n 0)
    ++ "\n- Total meetings today: " ++ getRender mood_status "meeting_count" (.n 0)
    ++ "\n- Energy level: " ++ getRender mood_status "energy_estimate" (.s "unknown")
    ++ "\n- Best time to reach: " ++ getRender mood_status "suggested_wait_time" (.s "unknown")
    ++ "\n- Summary: " ++ getRender mood_status "context_summary" (.s "")

/-- The `system_prompt` constant of `ContextEngine.generate_response`
(`context_engine.py` lines 71-92). -/
def systemPrompt : String :=
  "You are Aaran's digital twin - an AI that represents Aaran in professional contexts.\n\nYour role is to:\n1. Answer questions about Aaran's background, experience, projects, and interests\n2. Answer questions about Aaran's current availability using the LIVE calendar data provided\n3. Speak in FIRST PERSON as if you ARE Aaran (use \"I\", \"my\", \"me\")\n4. Be conversational, friendly, and authentic\n5. Use the provided context - don't make things up\n\nYou have access to:\n- Aaran's profile documents (resume, bio, projects, interests, work style)\n- LIVE Google Calendar data (current meeting status, today's schedule)\n\nPRIVACY RULES (strictly enforced):\n- Only share PROFESSIONAL/WORK information (9 AM - 5 PM weekdays)\n- NEVER share personal plans: weekends, evenings, vacations, personal appointments\n- If asked about personal time (weekends, after-hours, personal plans), respond:\n  \"I'm only able to share professional availability and work-related information. For personal matters, please reach out to Aaran directly.\"\n- This protects Aaran's privacy while still being helpful for professional contexts\n\nWhen asked about availability or meetings, use the calendar data to give accurate, real-time answers.\nKeep responses concise but informative (2-4 sentences for simple questions, more for complex ones)."

/-- One entry of the caller-supplied conversation history (a Python dict with
`role` and `content` keys). -/
structure Turn where
  role : String
  content : String
  deriving Repr, DecidableEq

/-- The terminal dict returned by `generate_response` and `ask`
(`context_engine.py` lines 123-126). -/
structure GroundedAnswer where
  response : String
  sources : List String
  deriving Repr, DecidableEq

/-- The message list handed to `chat.completions.create`
(`context_engine.py` lines 104-113): system prompt, history with role `twin`
mapped to `assistant` and anything else to `user`, then the user prompt. -/
def buildMessages (mood_status : List (String × Value)) (query : String)
    (context_docs : List RetrievedDoc) (history : List Turn) :
    List (String × String) :=
  let calendar_context := calendarContext mood_status
  let context_parts := context_docs.map
    (fun doc => "[Source: " ++ doc.source ++ "]\n" ++ doc.content)
  let context_string :=
    calendar_context ++ "\n\n---\n\n" ++ String.intercalate "\n\n---\n\n" context_parts
  let user_prompt :=
    "Here is context about Aaran:\n\n" ++ context_string
      ++ "\n\n---\n\nQuestion: " ++ query ++ "\n\nAnswer as Aaran (first person):"
  [("system", systemPrompt)]
    ++ history.map (fun msg =>
        ((if msg.role == "twin" then "assistant" else "user"), msg.content))
    ++ [("user", user_prompt)]

/-- `ContextEngine.generate_response` (`context_engine.py` lines 53-126).
`complete` is the opaque `chat.completions.create(...)` call (temperature and
token cap are fixed constants in the source and do not affect the dataflow);
the mood status is recomputed inside, as `self.mood_engine.get_status()` is. -/
def generate_response (complete : List (String × String) → String)
    (authenticated : Bool) (calEvents : List CalendarEvent) (current_hour : Nat)
    (query : String) (context_docs : List RetrievedDoc) (history : List Turn) :
    GroundedAnswer :=
  let mood_status := get_status authenticated calEvents current_hour
  { response := complete (buildMessages mood_status query context_docs history)
    sources := context_docs.map (fun doc => doc.source) }

/-- `ContextEngine.ask` (`context_engine.py` lines 128-134): retrieve then
generate. An exception from the retrieval call propagates to the caller,
since `ask` has no handler. -/
def ask (search : String → Nat → Except String SearchResult)
    (complete : List (String × String) → String)
    (authenticated : Bool) (calEvents : List CalendarEvent) (current_hour : Nat)
    (query : String) (history : List Turn) : Except String GroundedAnswer :=
  match retrieve search query 3 with
  | .error e => .error e
  | .ok context_docs =>
      .ok (generate_response complete authenticated calEvents current_hour
            query context_docs history)

/-- Numeric value stored under a dict key (0 when absent or non-numeric),
used to state facts about `meeting_count` in dict form. -/
def getNat (d : List (String × Value)) (k : String) : Nat :=
  match dictGet d k with
  | some (.n v) => v
  | _ => 0

/-- Sample normalized event that is active right now. -/
def sampleActive : CalendarEvent :=
  { summary := "Standup", start := "10:00", «end» := "10:30",
    is_now := true, is_past := false }

/-- Sample normalized event that is neither active nor past. -/
def sampleIdle : CalendarEvent :=
  { summary := "Review", start := "13:00", «end» := "13:30",
    is_now := false, is_past := false }

/-- Empty index answer: zero documents found. -/
def emptySearch : SearchResult := ⟨[], [], []⟩

/-- Raw timed event whose datetime strings do not parse. -/
def rawBad : RawEvent :=
  { summary := some "Sync", start := "2025-01-01Tbroken",
    «end» := "2025-01-01Talso-broken" }

/-- Raw all-day event (date-only values). -/
def rawAllDay : RawEvent :=
  { summary := some "Holiday", start := "2025-01-01", «end» := "2025-01-02" }

/-- Raw timed event used with `okParse`. -/
def rawTimed : RawEvent :=
  { summary := some "Call", start := "T-begin", «end» := "T-finish" }

/-- Stand-in for `datetime.fromisoformat` that fails on every input. -/
def failParse : String → Option Int := fun _ => none

/-- Stand-in for `datetime.fromisoformat` mapping `rawTimed`'s bounds to the
instants 0 and 10. -/
def okParse : String → Option Int :=
  fun s => if s = "T-begin" then some 0 else some 10

/-- Index answer in which the same source contributed two chunks. -/
def dupSearch : SearchResult :=
  ⟨["chunk one", "chunk two"], [some "notes.md", some "notes.md"], [1, 2]⟩

end DigitalTwin

namespace DigitalTwin

/-- C2: for every event list, hour ≥ 16 forces `availability = winding_down`,
`energy_estimate = low`, and replaces the whole summary with the fixed
end-of-workday message, superseding the in-meeting and meeting-count
branches. -/
theorem C2_hour16_override (events : List CalendarEvent) (hour : Nat)
    (h : 16 ≤ hour) :
    (analyze_calendar events hour).availability = "winding_down" ∧
    (analyze_calendar events hour).energy_estimate = "low" ∧
    (analyze_calendar events hour).context_summary =
      "End of workday. Best to reach out tomorrow morning." := by
  have h1 : ¬(9 ≤ hour ∧ hour < 12) := by omega
  have h2 : ¬(12 ≤ hour ∧ hour < 14) := by omega
  have h3 : ¬(14 ≤ hour ∧ hour < 16) := by omega
  unfold analyze_calendar
  simp [h1, h2, h3, h]

/-- Witness for C2 at a concrete input: three idle meetings at hour 17. -/
theorem C2_hour16_override_witness :
    (analyze_calendar [sampleIdle, sampleIdle, sampleIdle] 17).availability
        = "winding_down" ∧
    (analyze_calendar [sampleIdle, sampleIdle, sampleIdle] 17).energy_estimate
        = "low" ∧
    (analyze_calendar [sampleIdle, sampleIdle, sampleIdle] 17).context_summary
        = "End of workday. Best to reach out tomorrow morning." :=
  C2_hour16_override [sampleIdle, sampleIdle, sampleIdle] 17 (by omega)

/-- C1 counterexample: one active-now event at hour 17 yields
`availability = winding_down`, not `busy`, so the claimed triple does not
hold regardless of the current hour. -/
theorem C1_counterexample :
    ([sampleActive].any (fun event => event.is_now)) = true ∧
    (analyze_calendar [sampleActive] 17).availability ≠ "busy" := by
  constructor
  · rfl
  · decide

/-- C1 amended: with any active-now event, `best_contact_method = async` and
`suggested_wait_time = 30min` hold regardless of hour, and
`availability = busy` holds whenever the hour is below 16 (at hour ≥ 16 the
winding-down override replaces the availability). -/
theorem C1_in_meeting (events : List CalendarEvent) (hour : Nat)
    (h : events.any (fun event => event.is_now) = true) :
    (analyze_calendar events hour).best_contact_method = "async" ∧
    (analyze_calendar events hour).suggested_wait_time = "30min" ∧
    (hour < 16 → (analyze_calendar events hour).availability = "busy") := by
  unfold analyze_calendar
  refine ⟨by simp [h], by simp [h], ?_⟩
  intro hlt
  simp only [h]
  split_ifs <;> simp_all
  omega

/-- Witness for C1 at a concrete input: one active event at hour 11. -/
theorem C1_in_meeting_witness :
    (analyze_calendar [sampleActive] 11).availability = "busy" ∧
    (analyze_calendar [sampleActive] 11).best_contact_method = "async" ∧
    (analyze_calendar [sampleActive] 11).suggested_wait_time = "30min" := by
  have h := C1_in_meeting [sampleActive] 11 (by rfl)
  exact ⟨h.2.2 (by omega), h.1, h.2.1⟩

/-- C8: in every classifier output, `meetings_remaining` is the count of
events with `is_past = false` (computed once from the normalized events), and
it never exceeds `meeting_count`, which is the total number of events. -/
theorem C8_remaining_le_count (events : List CalendarEvent) (hour : Nat) :
    (analyze_calendar events hour).meetings_remaining =
      (events.filter (fun event => !event.is_past)).length ∧
    (analyze_calendar events hour).meeting_count = events.length ∧
    (analyze_calendar events hour).meetings_remaining ≤
      (analyze_calendar events hour).meeting_count := by
  refine ⟨rfl, rfl, ?_⟩
  exact List.length_filter_le _ _

/-- C3: an unauthenticated provider makes `get_status` return the fixed
`unknown` sentinel (availability `unknown`, `meeting_count = 0`,
`in_meeting = false`, fixed explanatory summary) independently of the events
argument, and on the `ask` path the unauthenticated condition never surfaces
as an error: with any successful index answer, `ask` returns `ok`. -/
theorem C3_unauth_sentinel :
    (∀ (events : List CalendarEvent) (hour : Nat),
      get_status false events hour = unauthSentinel) ∧
    dictGet unauthSentinel "availability" = some (.s "unknown") ∧
    dictGet unauthSentinel "meeting_count" = some (.n 0) ∧
    dictGet unauthSentinel "in_meeting" = some (.b false) ∧
    dictGet unauthSentinel "context_summary" =
      some (.s "Calendar not connected. Connect Google Calendar for availability info.") ∧
    (∀ (search : String → Nat → Except String SearchResult)
       (complete : List (String × String) → String)
       (events : List CalendarEvent) (hour : Nat) (query : String)
       (history : List Turn) (res : SearchResult),
      search query 3 = Except.ok res →
      ask search complete false events hour query history =
        Except.ok (generate_response complete false events hour query
          (formatDocs res) history)) := by
  refine ⟨fun _ _ => rfl, rfl, rfl, rfl, rfl, ?_⟩
  intro search complete events hour query history res h
  unfold ask retrieve
  rw [h]
  rfl

/-- Witness for C3 at a concrete input: empty index answer, hour 10. -/
theorem C3_unauth_sentinel_witness :
    ask (fun _ _ => Except.ok emptySearch) (fun _ => "hello") false [] 10 "q" [] =
      Except.ok (generate_response (fun _ => "hello") false [] 10 "q"
        (formatDocs emptySearch) []) :=
  C3_unauth_sentinel.2.2.2.2.2 (fun _ _ => Except.ok emptySearch)
    (fun _ => "hello") [] 10 "q" [] emptySearch rfl

/-- C7 counterexample: the unauthenticated sentinel dict returned by
`get_status` carries neither a `meetings_remaining` nor an `events` key, so
not every returned record carries all nine field names of the data model. -/
theorem C7_counterexample :
    hasKey (get_status false [] 10) "meetings_remaining" = false ∧
    hasKey (get_status false [] 10) "events" = false :=
  ⟨rfl, rfl⟩

/-- C7 amended: the authenticated `get_status` record carries exactly the
nine field names of the data model in source order, while the unauthenticated
sentinel carries only seven of them (no `meetings_remaining`, no `events`). -/
theorem C7_status_keys :
    (∀ (events : List CalendarEvent) (hour : Nat),
      (get_status true events hour).map (fun p => p.1) =
        ["availability", "energy_estimate", "best_contact_method",
         "suggested_wait_time", "context_summary", "meeting_count",
         "meetings_remaining", "in_meeting", "events"]) ∧
    (∀ (events : List CalendarEvent) (hour : Nat),
      (get_status false events hour).map (fun p => p.1) =
        ["availability", "energy_estimate", "best_contact_method",
         "suggested_wait_time", "context_summary", "meeting_count",
         "in_meeting"]) :=
  ⟨fun _ _ => rfl, fun _ _ => rfl⟩

/-- C10: in every dict returned by `get_status`, `in_meeting = true` implies
`meeting_count ≥ 1` (the flag is an existential over the events list, so the
list is non-empty), and the unauthenticated sentinel pairs
`in_meeting = false` with `meeting_count = 0`. -/
theorem C10_in_meeting_count :
    (∀ (authenticated : Bool) (events : List CalendarEvent) (hour : Nat),
      dictGet (get_status authenticated events hour) "in_meeting" =
          some (.b true) →
      1 ≤ getNat (get_status authenticated events hour) "meeting_count") ∧
    dictGet unauthSentinel "in_meeting" = some (.b false) ∧
    dictGet unauthSentinel "meeting_count" = some (.n 0) := by
  refine ⟨?_, rfl, rfl⟩
  intro authenticated events hour h
  cases authenticated with
  | false =>
      have hfix : dictGet (get_status false events hour) "in_meeting" =
          some (.b false) := rfl
      rw [hfix] at h
      simp at h
  | true =>
      have hlook : dictGet (get_status true events hour) "in_meeting" =
          some (.b (events.any (fun event => event.is_now))) := rfl
      rw [hlook] at h
      simp at h
      obtain ⟨x, hx, _⟩ := h
      show 1 ≤ events.length
      exact List.length_pos.mpr (List.ne_nil_of_mem hx)

/-- Witness for C10 at a concrete input: one active event at hour 10. -/
theorem C10_in_meeting_count_witness :
    1 ≤ getNat (get_status true [sampleActive] 10) "meeting_count" :=
  C10_in_meeting_count.1 true [sampleActive] 10 rfl

/-- C4: for every query and index answer, `ask` returns the answer whose
`sources` field is exactly the source identifier of each retrieved document,
mapped in retrieval order with duplicates preserved. -/
theorem C4_sources_order (search : String → Nat → Except String SearchResult)
    (complete : List (String × String) → String) (authenticated : Bool)
    (calEvents : List CalendarEvent) (hour : Nat) (query : String)
    (history : List Turn) (res : SearchResult)
    (h : search query 3 = Except.ok res) :
    ask search complete authenticated calEvents hour query history =
      Except.ok (generate_response complete authenticated calEvents hour query
        (formatDocs res) history) ∧
    (generate_response complete authenticated calEvents hour query
        (formatDocs res) history).sources =
      (formatDocs res).map (fun doc => doc.source) := by
  constructor
  · unfold ask retrieve
    rw [h]
    rfl
  · rfl

/-- Witness for C4 at a concrete input: two chunks citing the same source
make `sources = ["notes.md", "notes.md"]` — duplicates preserved in order. -/
theorem C4_sources_order_witness :
    (ask (fun _ _ => Except.ok dupSearch) (fun _ => "hello") true [] 10 "q" [] =
      Except.ok (generate_response (fun _ => "hello") true [] 10 "q"
        (formatDocs dupSearch) [])) ∧
    (generate_response (fun _ => "hello") true [] 10 "q"
        (formatDocs dupSearch) []).sources =
      (formatDocs dupSearch).map (fun doc => doc.source) ∧
    (formatDocs dupSearch).map (fun doc => doc.source) =
      ["notes.md", "notes.md"] := by
  have h := C4_sources_order (fun _ _ => Except.ok dupSearch) (fun _ => "hello")
    true [] 10 "q" [] dupSearch rfl
  exact ⟨h.1, h.2, rfl⟩

/-- C5 counterexample: when the index search raises (the `collection.query`
call fails), `ask` propagates the error to its caller instead of proceeding
with an empty document context — neither `retrieve` nor `ask` has a handler. -/
theorem C5_counterexample :
    ask (fun _ _ => Except.error "index unreachable") (fun _ => "answer")
      true [] 10 "hi" [] = Except.error "index unreachable" := rfl

/-- C5 amended: when the index answers with zero documents, `ask` does not
fail — it still invokes the completion call on the messages built from the
empty document list (so the context holds only the live-status block) and
returns that completion text (non-empty whenever the completion output is)
with an empty sources list. When the index is unreachable, the error
propagates. -/
theorem C5_empty_retrieval (search : String → Nat → Except String SearchResult)
    (complete : List (String × String) → String) (authenticated : Bool)
    (calEvents : List CalendarEvent) (hour : Nat) (query : String)
    (history : List Turn) (res : SearchResult)
    (hs : search query 3 = Except.ok res) (hd : res.documents = [])
    (hne : complete (buildMessages (get_status authenticated calEvents hour)
      query [] history) ≠ "") :
    ask search complete authenticated calEvents hour query history =
      Except.ok (GroundedAnswer.mk
        (complete (buildMessages (get_status authenticated calEvents hour)
          query [] history)) []) ∧
    complete (buildMessages (get_status authenticated calEvents hour)
      query [] history) ≠ "" := by
  refine ⟨?_, hne⟩
  have hfd : formatDocs res = [] := by simp [formatDocs, hd]
  unfold ask retrieve
  rw [hs]
  show Except.ok (generate_response complete authenticated calEvents hour query
    (formatDocs res) history) = _
  rw [hfd]
  rfl

/-- Witness for C5 at a concrete input: empty index answer, constant
completion output. -/
theorem C5_empty_retrieval_witness :
    ask (fun _ _ => Except.ok emptySearch) (fun _ => "status-only answer")
        true [] 10 "q" [] =
      Except.ok { response := "status-only answer", sources := [] } ∧
    ("status-only answer" : String) ≠ "" :=
  C5_empty_retrieval (fun _ _ => Except.ok emptySearch)
    (fun _ => "status-only answer") true [] 10 "q" [] emptySearch rfl rfl
    (by decide)

/-- C6: a timed raw event whose start or end string fails to parse is emitted
with the raw string values and both flags false, the surrounding loop
normalizes every other event unchanged (the loop body is applied elementwise,
so a failing event never aborts the rest), and the fallback is a total
function — nothing is raised to the caller. -/
theorem C6_parse_failure (parse : String → Option Int) (fmtHM : Int → String)
    (now : Int) (e : RawEvent) (xs ys : List RawEvent)
    (hT : containsT e.start = true)
    (h : parse e.start = none ∨ parse e.«end» = none) :
    normalizeEvent parse fmtHM now e =
      { summary := e.summary.getD "No title", start := e.start,
        «end» := e.«end», is_now := false, is_past := false } ∧
    normalizeEvents parse fmtHM now (xs ++ e :: ys) =
      normalizeEvents parse fmtHM now xs
        ++ normalizeEvent parse fmtHM now e
          :: normalizeEvents parse fmtHM now ys := by
  constructor
  · unfold normalizeEvent
    rw [if_pos hT]
    split
    · next s en hs he => rcases h with h | h <;> simp_all
    · rfl
  · simp [normalizeEvents]

/-- Witness for C6 at a concrete input: an unparseable timed event followed
by an all-day event; the all-day event is still normalized. -/
theorem C6_parse_failure_witness :
    normalizeEvent failParse (fun _ => "") 0 rawBad =
      { summary := "Sync", start := "2025-01-01Tbroken",
        «end» := "2025-01-01Talso-broken", is_now := false, is_past := false } ∧
    normalizeEvents failParse (fun _ => "") 0 ([] ++ rawBad :: [rawAllDay]) =
      normalizeEvents failParse (fun _ => "") 0 []
        ++ normalizeEvent failParse (fun _ => "") 0 rawBad
          :: normalizeEvents failParse (fun _ => "") 0 [rawAllDay] :=
  C6_parse_failure failParse (fun _ => "") 0 rawBad [] [rawAllDay] rfl
    (Or.inl rfl)

/-- C9: no normalized event ever has `is_now` and `is_past` both true, and
for a timed event whose bounds parse, the flags are exactly
`is_now = (start ≤ now ∧ now ≤ end)` and `is_past = (now > end)` against the
single `now` instant — the instant `datetime.now(tz=start_dt.tzinfo)`
denotes, which timezone-aware comparison treats absolutely. -/
theorem C9_flags (parse : String → Option Int) (fmtHM : Int → String)
    (now : Int) (e : RawEvent) :
    (¬((normalizeEvent parse fmtHM now e).is_now = true ∧
       (normalizeEvent parse fmtHM now e).is_past = true)) ∧
    (∀ start_dt end_dt, containsT e.start = true →
      parse e.start = some start_dt → parse e.«end» = some end_dt →
      (normalizeEvent parse fmtHM now e).is_now =
          decide (start_dt ≤ now ∧ now ≤ end_dt) ∧
      (normalizeEvent parse fmtHM now e).is_past = decide (now > end_dt)) := by
  constructor
  · unfold normalizeEvent
    split
    · split
      · next s en hs he =>
          rintro ⟨h1, h2⟩
          simp at h1 h2
          omega
      · rintro ⟨h1, _⟩
        cases h1
    · rintro ⟨h1, _⟩
      cases h1
  · intro start_dt end_dt hT hs he
    unfold normalizeEvent
    rw [if_pos hT, hs, he]
    exact ⟨rfl, rfl⟩

/-- Witness for C9 at a concrete input: a timed event spanning instants 0 to
10 evaluated at now = 5 is active and not past. -/
theorem C9_flags_witness :
    (¬((normalizeEvent okParse (fun _ => "") 5 rawTimed).is_now = true ∧
       (normalizeEvent okParse (fun _ => "") 5 rawTimed).is_past = true)) ∧
    (normalizeEvent okParse (fun _ => "") 5 rawTimed).is_now =
        decide ((0 : Int) ≤ 5 ∧ (5 : Int) ≤ 10) ∧
    (normalizeEvent okParse (fun _ => "") 5 rawTimed).is_past =
        decide ((5 : Int) > 10) := by
  have h := C9_flags okParse (fun _ => "") 5 rawTimed
  exact ⟨h.1, h.2 0 10 rfl rfl rfl⟩

end DigitalTwin
